import Mathlib

/-!
# Verification of `engine.go` (package `gptbot`)

A shallow embedding of the two inference adapters of `engine.go`,
`OpenAIChatEngine.Infer` and `OpenAICompletionEngine.Infer`, together with the
normalized request/response model they translate.

Modelling conventions.

* A Go pointer `*T` is `Option T` (`none` is the nil pointer); a Go slice `[]T`
  is `List T` (the nil slice and the empty slice both have length 0).
* Dereferencing nil and indexing out of range are the two run-time faults the
  code can raise; they are explicit results (`Fault`), never hidden.
* A Go `string` is carried as `String`, a Go `int` as `Int`, and a `float64` as
  its 64-bit pattern. The adapters only copy these values.
* The backend client is a value of the external client library. Its behaviour
  for one call is a function from the context and the outbound parameters to
  the pair `(apiResp, err)` the Go method returns. Every call an adapter issues
  is recorded, with its arguments and its reply, in the `calls` trace of the
  run.
-/

namespace GptBot

/-! ## Go runtime values -/

/-- Go `float64`, carried as its IEEE-754 binary64 bit pattern. -/
structure Float64 where
  bits : Nat
deriving DecidableEq, Repr

/-- A non-nil value of the Go interface `error`. The nil error is `none` of
`Option GoError`. -/
structure GoError where
  msg : String
deriving DecidableEq, Repr

/-- A `context.Context` value; the adapters hand it to the client untouched. -/
structure Context where
  id : Nat
deriving DecidableEq, Repr

/-- Run-time faults (Go panics) reachable from the adapters. -/
inductive Fault where
  | nilDereference
  | indexOutOfRange (index length : Nat)
deriving DecidableEq, Repr

/-- Go `*p`: dereferencing the nil pointer faults. -/
def deref {α : Type} : Option α → Except Fault α
  | some x => .ok x
  | none => .error .nilDereference

/-- Go `xs[i]`: an index outside `0 .. len(xs)-1` faults. -/
def index {α : Type} (xs : List α) (i : Nat) : Except Fault α :=
  match xs[i]? with
  | some x => .ok x
  | none => .error (.indexOutOfRange i xs.length)

/-! ## Normalized model (`engine.go`, lines 29-42) -/

/-- Go `type EngineMessage struct { Role, Content string }`. -/
structure EngineMessage where
  Role : String
  Content : String
deriving DecidableEq, Repr

/-- Go `type EngineRequest struct`; `Messages` is `[]*EngineMessage`. -/
structure EngineRequest where
  Messages : List (Option EngineMessage)
  Temperature : Float64
  MaxTokens : Int
deriving DecidableEq, Repr

/-- Go `type EngineResponse struct { Text string }`. -/
structure EngineResponse where
  Text : String
deriving DecidableEq, Repr

/-! ## The external client library

The types of `github.com/rakyll/openai-go/chat` and `.../completion`. Only the
fields `engine.go` writes or reads are carried; the composite literals of
`engine.go` leave every other parameter field at its zero value. Pointer-typed
fields are `Option`, the general case. -/

namespace chat

/-- Library type `chat.Message`. -/
structure Message where
  Role : String
  Content : String
deriving DecidableEq, Repr

/-- Library type `chat.CreateCompletionParams`; `Messages` is `[]*chat.Message`. -/
structure CreateCompletionParams where
  Messages : List (Option Message)
  Temperature : Float64
  MaxTokens : Int
deriving DecidableEq, Repr

/-- Library type `chat.Choice`; `Message` is a pointer. -/
structure Choice where
  Message : Option Message
deriving DecidableEq, Repr

/-- Library type `chat.CreateCompletionResponse`; `Choices` is `[]*chat.Choice`. -/
structure CreateCompletionResponse where
  Choices : List (Option Choice)
deriving DecidableEq, Repr

/-- Library type `chat.Client`, seen through its one method: what
`CreateCompletion(ctx, params)` returns, the pair `(apiResp, err)`. -/
structure Client where
  CreateCompletion : Context → CreateCompletionParams →
    Option CreateCompletionResponse × Option GoError

end chat

namespace completion

/-- Library type `completion.CreateParams`; `Prompt` is `[]string`. -/
structure CreateParams where
  Prompt : List String
  Temperature : Float64
  MaxTokens : Int
deriving DecidableEq, Repr

/-- Library type `completion.Choice`. -/
structure Choice where
  Text : String
deriving DecidableEq, Repr

/-- Library type `completion.CreateResponse`; `Choices` is `[]*completion.Choice`. -/
structure CreateResponse where
  Choices : List (Option Choice)
deriving DecidableEq, Repr

/-- Library type `completion.Client`, seen through its one method: what
`Create(ctx, params)` returns, the pair `(apiResp, err)`. -/
structure Client where
  Create : Context → CreateParams → Option CreateResponse × Option GoError

end completion

/-! ## Runs of `Infer` -/

/-- One call issued to the backend client: its arguments and its reply. -/
structure Call (P R : Type) where
  ctx : Context
  params : P
  apiResp : Option R
  err : Option GoError
deriving DecidableEq, Repr

/-- How an invocation of `Infer` ends: it returns the Go pair `(resp, err)`, or
it faults and returns nothing. -/
inductive Outcome where
  | returned (resp : Option EngineResponse) (err : Option GoError)
  | fault (f : Fault)
deriving DecidableEq, Repr

/-- An invocation of `Infer`: the backend calls it issued, in order, and how it
ended. -/
structure Run (P R : Type) where
  calls : List (Call P R)
  outcome : Outcome
deriving DecidableEq, Repr

/-! ## The adapters (`engine.go`, lines 52-60 and 78-111) -/

/-- Go `type OpenAIChatEngine struct { Client *chat.Client }`, as built by
`NewOpenAIChatEngine`: the client is set. -/
structure OpenAIChatEngine where
  Client : chat.Client

/-- Go `type OpenAICompletionEngine struct { Client *completion.Client }`, as
built by `NewOpenAICompletionEngine`: the client is set. -/
structure OpenAICompletionEngine where
  Client : completion.Client

/-- Lines 79-88: the argument `&chat.CreateCompletionParams{...}`, evaluated
field by field in source order before the call. -/
def OpenAIChatEngine.outboundParams (req : Option EngineRequest) :
    Except Fault chat.CreateCompletionParams := do
  let role := (← deref (← index (← deref req).Messages 0)).Role
  let content := (← deref (← index (← deref req).Messages 0)).Content
  let temperature := (← deref req).Temperature
  let maxTokens := (← deref req).MaxTokens
  pure { Messages := [some { Role := role, Content := content }],
         Temperature := temperature, MaxTokens := maxTokens }

/-- Line 94: the expression `apiResp.Choices[0].Message.Content`. -/
def OpenAIChatEngine.firstChoiceText (apiResp : Option chat.CreateCompletionResponse) :
    Except Fault String := do
  let choice ← deref (← index (← deref apiResp).Choices 0)
  pure (← deref choice.Message).Content

/-- Lines 78-96: `func (e *OpenAIChatEngine) Infer(ctx, req) (resp, err)`. -/
def OpenAIChatEngine.Infer (e : OpenAIChatEngine) (ctx : Context)
    (req : Option EngineRequest) :
    Run chat.CreateCompletionParams chat.CreateCompletionResponse :=
  match OpenAIChatEngine.outboundParams req with
  | .error f => { calls := [], outcome := .fault f }
  | .ok params =>
    let reply := e.Client.CreateCompletion ctx params
    let calls := [{ ctx := ctx, params := params, apiResp := reply.1, err := reply.2 }]
    match reply.2 with
    | some x =>
      -- `if err != nil { return }`: the named result `resp` is still nil
      { calls := calls, outcome := .returned none (some x) }
    | none =>
      match OpenAIChatEngine.firstChoiceText reply.1 with
      | .error f => { calls := calls, outcome := .fault f }
      | .ok text => { calls := calls, outcome := .returned (some { Text := text }) none }

/-- Lines 99-103: the argument `&completion.CreateParams{...}`, evaluated field
by field in source order before the call. -/
def OpenAICompletionEngine.outboundParams (req : Option EngineRequest) :
    Except Fault completion.CreateParams := do
  let content := (← deref (← index (← deref req).Messages 0)).Content
  let temperature := (← deref req).Temperature
  let maxTokens := (← deref req).MaxTokens
  pure { Prompt := [content], Temperature := temperature, MaxTokens := maxTokens }

/-- Line 109: the expression `apiResp.Choices[0].Text`. -/
def OpenAICompletionEngine.firstChoiceText (apiResp : Option completion.CreateResponse) :
    Except Fault String := do
  pure (← deref (← index (← deref apiResp).Choices 0)).Text

/-- Lines 98-111: `func (e *OpenAICompletionEngine) Infer(ctx, req) (resp, err)`. -/
def OpenAICompletionEngine.Infer (e : OpenAICompletionEngine) (ctx : Context)
    (req : Option EngineRequest) :
    Run completion.CreateParams completion.CreateResponse :=
  match OpenAICompletionEngine.outboundParams req with
  | .error f => { calls := [], outcome := .fault f }
  | .ok params =>
    let reply := e.Client.Create ctx params
    let calls := [{ ctx := ctx, params := params, apiResp := reply.1, err := reply.2 }]
    match reply.2 with
    | some x =>
      -- `if err != nil { return }`: the named result `resp` is still nil
      { calls := calls, outcome := .returned none (some x) }
    | none =>
      match OpenAICompletionEngine.firstChoiceText reply.1 with
      | .error f => { calls := calls, outcome := .fault f }
      | .ok text => { calls := calls, outcome := .returned (some { Text := text }) none }

/-! ## Concrete inputs -/

/-- A context value. -/
def ctx0 : Context := { id := 0 }

/-- The number 0.7 as a `float64`. -/
def temp07 : Float64 := { bits := 0x3FE6666666666666 }

/-- The number -1.5 as a `float64`. -/
def tempNeg : Float64 := { bits := 0xBFF8000000000000 }

/-- The message `{role: "user", content: "hello"}`. -/
def helloMessage : EngineMessage := { Role := "user", Content := "hello" }

/-- The request of scenarios A and B. -/
def scenarioRequest : EngineRequest :=
  { Messages := [some helloMessage], Temperature := temp07, MaxTokens := 50 }

/-- The reply of scenario A: one choice, `{role: "assistant", content: "hi there"}`. -/
def chatHiThere : chat.CreateCompletionResponse :=
  { Choices := [some { Message := some { Role := "assistant", Content := "hi there" } }] }

/-- A chat backend that answers every call with `chatHiThere`. -/
def chatEngineHiThere : OpenAIChatEngine :=
  { Client := { CreateCompletion := fun _ _ => (some chatHiThere, none) } }

/-- The reply of scenario B: one choice with text "hi there". -/
def completionHiThere : completion.CreateResponse :=
  { Choices := [some { Text := "hi there" }] }

/-- A completion backend that answers every call with `completionHiThere`. -/
def completionEngineHiThere : OpenAICompletionEngine :=
  { Client := { Create := fun _ _ => (some completionHiThere, none) } }

/-- The request of scenarios A and B followed by two more messages, one of them nil. -/
def scenarioRequestLong : EngineRequest :=
  { Messages := [some helloMessage, some { Role := "assistant", Content := "earlier" }, none],
    Temperature := temp07, MaxTokens := 50 }

/-- The request of scenarios A and B with another role on its message. -/
def scenarioRequestSystem : EngineRequest :=
  { Messages := [some { Role := "system", Content := "hello" }],
    Temperature := temp07, MaxTokens := 50 }

/-- A request whose message has a role no backend knows and whose content has
surrounding blanks. -/
def oddRoleRequest : EngineRequest :=
  { Messages := [some { Role := "wizard", Content := "  hello \n" }],
    Temperature := temp07, MaxTokens := 50 }

/-- A request with a negative temperature and a negative token limit. -/
def negativeRequest : EngineRequest :=
  { Messages := [some helloMessage], Temperature := tempNeg, MaxTokens := -7 }

/-- A request with a zero temperature and a zero token limit. -/
def zeroRequest : EngineRequest :=
  { Messages := [some helloMessage], Temperature := { bits := 0 }, MaxTokens := 0 }

/-- A request without messages. -/
def emptyRequest : EngineRequest :=
  { Messages := [], Temperature := temp07, MaxTokens := 50 }

/-- A request whose only message is the nil pointer. -/
def nilFirstRequest : EngineRequest :=
  { Messages := [none], Temperature := temp07, MaxTokens := 50 }

/-- The transport error of scenario D. -/
def err429 : GoError := { msg := "429 Too Many Requests" }

/-- A chat backend whose every call fails with `err429`. -/
def chatEngineFailing : OpenAIChatEngine :=
  { Client := { CreateCompletion := fun _ _ => (none, some err429) } }

/-- A completion backend whose every call fails with `err429`. -/
def completionEngineFailing : OpenAICompletionEngine :=
  { Client := { Create := fun _ _ => (none, some err429) } }

/-- Another backend error, an internal server error. -/
def err500 : GoError := { msg := "500 Internal Server Error" }

/-- A chat backend whose every call fails with `err500`. -/
def chatEngineFailing500 : OpenAIChatEngine :=
  { Client := { CreateCompletion := fun _ _ => (none, some err500) } }

/-- A completion backend whose every call fails with `err500`. -/
def completionEngineFailing500 : OpenAICompletionEngine :=
  { Client := { Create := fun _ _ => (none, some err500) } }

/-- A chat backend whose every call succeeds with zero choices. -/
def chatEngineNoChoices : OpenAIChatEngine :=
  { Client := { CreateCompletion := fun _ _ => (some { Choices := [] }, none) } }

/-- A completion backend whose every call succeeds with zero choices. -/
def completionEngineNoChoices : OpenAICompletionEngine :=
  { Client := { Create := fun _ _ => (some { Choices := [] }, none) } }

/-- The call the chat adapter issues for `scenarioRequest` against
`chatEngineNoChoices`. -/
def chatNoChoicesCall : Call chat.CreateCompletionParams chat.CreateCompletionResponse :=
  { ctx := ctx0,
    params := { Messages := [some { Role := "user", Content := "hello" }],
                Temperature := temp07, MaxTokens := 50 },
    apiResp := some { Choices := [] }, err := none }

/-- The call the completion adapter issues for `scenarioRequest` against
`completionEngineNoChoices`. -/
def completionNoChoicesCall : Call completion.CreateParams completion.CreateResponse :=
  { ctx := ctx0,
    params := { Prompt := ["hello"], Temperature := temp07, MaxTokens := 50 },
    apiResp := some { Choices := [] }, err := none }

/-- The call the chat adapter issues for `scenarioRequest` against
`chatEngineFailing`. -/
def chatFailingCall : Call chat.CreateCompletionParams chat.CreateCompletionResponse :=
  { ctx := ctx0,
    params := { Messages := [some { Role := "user", Content := "hello" }],
                Temperature := temp07, MaxTokens := 50 },
    apiResp := none, err := some err429 }

/-- The call the completion adapter issues for `scenarioRequest` against
`completionEngineFailing`. -/
def completionFailingCall : Call completion.CreateParams completion.CreateResponse :=
  { ctx := ctx0,
    params := { Prompt := ["hello"], Temperature := temp07, MaxTokens := 50 },
    apiResp := none, err := some err429 }

/-! ## Basic facts -/

/-- What the chat adapter's argument evaluates to, by the first message. -/
theorem chat_outboundParams_head (r : EngineRequest) :
    OpenAIChatEngine.outboundParams (some r) =
      match r.Messages.head? with
      | none => .error (.indexOutOfRange 0 0)
      | some none => .error .nilDereference
      | some (some m) =>
        .ok { Messages := [some { Role := m.Role, Content := m.Content }],
              Temperature := r.Temperature, MaxTokens := r.MaxTokens } := by
  rcases h : r.Messages with _ | ⟨_ | m, rest⟩ <;>
    simp [OpenAIChatEngine.outboundParams, deref, index, h, bind, Except.bind, pure,
      Except.pure]

theorem chat_outboundParams_cons (r : EngineRequest) (m : EngineMessage)
    (rest : List (Option EngineMessage)) (hreq : r.Messages = some m :: rest) :
    OpenAIChatEngine.outboundParams (some r) =
      .ok { Messages := [some { Role := m.Role, Content := m.Content }],
            Temperature := r.Temperature, MaxTokens := r.MaxTokens } := by
  simp [chat_outboundParams_head, hreq]

/-- What the completion adapter's argument evaluates to, by the content of the
first message. -/
theorem completion_outboundParams_head (r : EngineRequest) :
    OpenAICompletionEngine.outboundParams (some r) =
      match (r.Messages.map (Option.map EngineMessage.Content)).head? with
      | none => .error (.indexOutOfRange 0 0)
      | some none => .error .nilDereference
      | some (some s) =>
        .ok { Prompt := [s], Temperature := r.Temperature, MaxTokens := r.MaxTokens } := by
  rcases h : r.Messages with _ | ⟨_ | m, rest⟩ <;>
    simp [OpenAICompletionEngine.outboundParams, deref, index, h, bind, Except.bind, pure,
      Except.pure]

theorem completion_outboundParams_cons (r : EngineRequest) (m : EngineMessage)
    (rest : List (Option EngineMessage)) (hreq : r.Messages = some m :: rest) :
    OpenAICompletionEngine.outboundParams (some r) =
      .ok { Prompt := [m.Content], Temperature := r.Temperature,
            MaxTokens := r.MaxTokens } := by
  simp [completion_outboundParams_head, hreq]

/-- The chat adapter issues no call when its argument faults, and one call
otherwise. -/
theorem chat_infer_calls (e : OpenAIChatEngine) (ctx : Context) (req : Option EngineRequest) :
    (e.Infer ctx req).calls =
      match OpenAIChatEngine.outboundParams req with
      | .error _ => []
      | .ok p => [{ ctx := ctx, params := p, apiResp := (e.Client.CreateCompletion ctx p).1,
                    err := (e.Client.CreateCompletion ctx p).2 }] := by
  unfold OpenAIChatEngine.Infer
  cases OpenAIChatEngine.outboundParams req with
  | error f => rfl
  | ok p =>
    dsimp only
    cases (e.Client.CreateCompletion ctx p).2 with
    | some x => rfl
    | none =>
      dsimp only
      cases OpenAIChatEngine.firstChoiceText (e.Client.CreateCompletion ctx p).1 <;> rfl

/-- The completion adapter issues no call when its argument faults, and one
call otherwise. -/
theorem completion_infer_calls (e : OpenAICompletionEngine) (ctx : Context)
    (req : Option EngineRequest) :
    (e.Infer ctx req).calls =
      match OpenAICompletionEngine.outboundParams req with
      | .error _ => []
      | .ok p => [{ ctx := ctx, params := p, apiResp := (e.Client.Create ctx p).1,
                    err := (e.Client.Create ctx p).2 }] := by
  unfold OpenAICompletionEngine.Infer
  cases OpenAICompletionEngine.outboundParams req with
  | error f => rfl
  | ok p =>
    dsimp only
    cases (e.Client.Create ctx p).2 with
    | some x => rfl
    | none =>
      dsimp only
      cases OpenAICompletionEngine.firstChoiceText (e.Client.Create ctx p).1 <;> rfl

/-- C1. For every request whose `Messages` starts with a non-nil message, and
every chat backend whose `CreateCompletion` call succeeds (nil error) with a
response whose first choice carries a message `msg`, `Infer` returns a nil
error and the response `{Text: msg.Content}`, the content unchanged, whatever
the other choices are. -/
theorem chat_infer_returns_first_choice_content (e : OpenAIChatEngine) (ctx : Context)
    (r : EngineRequest) (m : EngineMessage) (rest : List (Option EngineMessage))
    (a : chat.CreateCompletionResponse) (c : chat.Choice)
    (others : List (Option chat.Choice)) (msg : chat.Message)
    (hreq : r.Messages = some m :: rest)
    (hcall : e.Client.CreateCompletion ctx
      { Messages := [some { Role := m.Role, Content := m.Content }],
        Temperature := r.Temperature, MaxTokens := r.MaxTokens } = (some a, none))
    (hchoices : a.Choices = some c :: others)
    (hmsg : c.Message = some msg) :
    (e.Infer ctx (some r)).outcome = .returned (some { Text := msg.Content }) none := by
  simp [OpenAIChatEngine.Infer, chat_outboundParams_cons r m rest hreq, hcall,
    OpenAIChatEngine.firstChoiceText, deref, index, hchoices, hmsg, bind, Except.bind, pure,
    Except.pure]

/-- Scenario A, an instance of C1: the request `hello` against a chat backend
answering `hi there` yields the response `hi there`. -/
theorem chat_infer_returns_first_choice_content_witness :
    scenarioRequest.Messages = some helloMessage :: [] ∧
    chatEngineHiThere.Client.CreateCompletion ctx0
      { Messages := [some { Role := helloMessage.Role, Content := helloMessage.Content }],
        Temperature := scenarioRequest.Temperature,
        MaxTokens := scenarioRequest.MaxTokens } = (some chatHiThere, none) ∧
    (chatEngineHiThere.Infer ctx0 (some scenarioRequest)).outcome =
      .returned (some { Text := "hi there" }) none :=
  ⟨rfl, rfl,
    chat_infer_returns_first_choice_content chatEngineHiThere ctx0 scenarioRequest
      helloMessage [] chatHiThere { Message := some { Role := "assistant", Content := "hi there" } }
      [] { Role := "assistant", Content := "hi there" } rfl rfl rfl rfl⟩

/-- C2. For every request whose `Messages` starts with a non-nil message, and
every completion backend whose `Create` call succeeds (nil error) with a
response whose choice list is non-empty and starts with a choice `c`, `Infer`
returns a nil error and the response `{Text: c.Text}`, the text unchanged,
whatever the other choices are. -/
theorem completion_infer_returns_first_choice_text (e : OpenAICompletionEngine)
    (ctx : Context) (r : EngineRequest) (m : EngineMessage)
    (rest : List (Option EngineMessage)) (a : completion.CreateResponse)
    (c : completion.Choice) (others : List (Option completion.Choice))
    (hreq : r.Messages = some m :: rest)
    (hcall : e.Client.Create ctx
      { Prompt := [m.Content], Temperature := r.Temperature,
        MaxTokens := r.MaxTokens } = (some a, none))
    (hchoices : a.Choices = some c :: others) :
    (e.Infer ctx (some r)).outcome = .returned (some { Text := c.Text }) none := by
  simp [OpenAICompletionEngine.Infer, completion_outboundParams_cons r m rest hreq, hcall,
    OpenAICompletionEngine.firstChoiceText, deref, index, hchoices, bind, Except.bind, pure,
    Except.pure]

/-- Scenario B, an instance of C2: the request `hello` against a completion
backend answering `hi there` yields the response `hi there`. -/
theorem completion_infer_returns_first_choice_text_witness :
    scenarioRequest.Messages = some helloMessage :: [] ∧
    completionEngineHiThere.Client.Create ctx0
      { Prompt := [helloMessage.Content], Temperature := scenarioRequest.Temperature,
        MaxTokens := scenarioRequest.MaxTokens } = (some completionHiThere, none) ∧
    (completionEngineHiThere.Infer ctx0 (some scenarioRequest)).outcome =
      .returned (some { Text := "hi there" }) none :=
  ⟨rfl, rfl,
    completion_infer_returns_first_choice_text completionEngineHiThere ctx0 scenarioRequest
      helloMessage [] completionHiThere { Text := "hi there" } [] rfl rfl rfl⟩

/-- C3. For both adapters, every request with a non-empty `Messages` list and
every error `x`: if the backend client fails with `x` on the call that `Infer`
issues, then `Infer` returns the pair `(nil, x)`, the client's own error value
and no response. Stated twice for each adapter: for whatever call the run
issued, and, when the first message is not nil, for the client's reply to the
parameters built from it, where the whole run is the one call followed by the
return of `(nil, x)`. -/
theorem infer_returns_backend_error (ctx : Context) (r : EngineRequest)
    (m0 : Option EngineMessage) (rest : List (Option EngineMessage)) (x : GoError)
    (hreq : r.Messages = m0 :: rest) :
    (∀ e : OpenAIChatEngine,
      (∀ c ∈ (e.Infer ctx (some r)).calls,
        (e.Client.CreateCompletion c.ctx c.params).2 = some x →
          (e.Infer ctx (some r)).outcome = .returned none (some x)) ∧
      (∀ m : EngineMessage, m0 = some m →
        (e.Client.CreateCompletion ctx
          { Messages := [some { Role := m.Role, Content := m.Content }],
            Temperature := r.Temperature, MaxTokens := r.MaxTokens }).2 = some x →
        e.Infer ctx (some r) =
          { calls := [{ ctx := ctx,
                        params := { Messages := [some { Role := m.Role, Content := m.Content }],
                                    Temperature := r.Temperature,
                                    MaxTokens := r.MaxTokens },
                        apiResp := (e.Client.CreateCompletion ctx
                          { Messages := [some { Role := m.Role, Content := m.Content }],
                            Temperature := r.Temperature, MaxTokens := r.MaxTokens }).1,
                        err := some x }],
            outcome := .returned none (some x) })) ∧
    (∀ e : OpenAICompletionEngine,
      (∀ c ∈ (e.Infer ctx (some r)).calls,
        (e.Client.Create c.ctx c.params).2 = some x →
          (e.Infer ctx (some r)).outcome = .returned none (some x)) ∧
      (∀ m : EngineMessage, m0 = some m →
        (e.Client.Create ctx
          { Prompt := [m.Content], Temperature := r.Temperature,
            MaxTokens := r.MaxTokens }).2 = some x →
        e.Infer ctx (some r) =
          { calls := [{ ctx := ctx,
                        params := { Prompt := [m.Content], Temperature := r.Temperature,
                                    MaxTokens := r.MaxTokens },
                        apiResp := (e.Client.Create ctx
                          { Prompt := [m.Content], Temperature := r.Temperature,
                            MaxTokens := r.MaxTokens }).1,
                        err := some x }],
            outcome := .returned none (some x) })) := by
  constructor
  · intro e
    constructor
    · intro c hc hfail
      have hcalls := chat_infer_calls e ctx (some r)
      cases hp : OpenAIChatEngine.outboundParams (some r) with
      | error f =>
        rw [hp] at hcalls
        rw [hcalls] at hc
        simp at hc
      | ok p =>
        rw [hp] at hcalls
        rw [hcalls] at hc
        simp only [List.mem_singleton] at hc
        subst hc
        simp only at hfail
        simp [OpenAIChatEngine.Infer, hp, hfail]
    · intro m hm hfail
      subst hm
      simp [OpenAIChatEngine.Infer, chat_outboundParams_cons r m rest hreq, hfail]
  · intro e
    constructor
    · intro c hc hfail
      have hcalls := completion_infer_calls e ctx (some r)
      cases hp : OpenAICompletionEngine.outboundParams (some r) with
      | error f =>
        rw [hp] at hcalls
        rw [hcalls] at hc
        simp at hc
      | ok p =>
        rw [hp] at hcalls
        rw [hcalls] at hc
        simp only [List.mem_singleton] at hc
        subst hc
        simp only at hfail
        simp [OpenAICompletionEngine.Infer, hp, hfail]
    · intro m hm hfail
      subst hm
      simp [OpenAICompletionEngine.Infer, completion_outboundParams_cons r m rest hreq, hfail]

/-- Scenario D, an instance of C3: against backends failing with `err429`, both
adapters issue their one call and return `(nil, err429)`; against backends
failing with `err500` they return `(nil, err500)`. -/
theorem infer_returns_backend_error_witness :
    scenarioRequest.Messages = some helloMessage :: [] ∧
    (chatEngineFailing.Client.CreateCompletion ctx0
      { Messages := [some { Role := "user", Content := "hello" }],
        Temperature := temp07, MaxTokens := 50 }).2 = some err429 ∧
    chatEngineFailing.Infer ctx0 (some scenarioRequest) =
      { calls := [chatFailingCall], outcome := .returned none (some err429) } ∧
    (chatEngineFailing500.Infer ctx0 (some scenarioRequest)).outcome =
      .returned none (some err500) ∧
    (completionEngineFailing.Client.Create ctx0
      { Prompt := ["hello"], Temperature := temp07, MaxTokens := 50 }).2 = some err429 ∧
    completionEngineFailing.Infer ctx0 (some scenarioRequest) =
      { calls := [completionFailingCall], outcome := .returned none (some err429) } ∧
    (completionEngineFailing500.Infer ctx0 (some scenarioRequest)).outcome =
      .returned none (some err500) :=
  ⟨rfl, rfl,
   ((infer_returns_backend_error ctx0 scenarioRequest (some helloMessage) [] err429 rfl).1
     chatEngineFailing).2 helloMessage rfl rfl,
   ((infer_returns_backend_error ctx0 scenarioRequest (some helloMessage) [] err500 rfl).1
     chatEngineFailing500).1
     { ctx := ctx0,
       params := { Messages := [some { Role := "user", Content := "hello" }],
                   Temperature := temp07, MaxTokens := 50 },
       apiResp := none, err := some err500 } (by decide) rfl,
   rfl,
   ((infer_returns_backend_error ctx0 scenarioRequest (some helloMessage) [] err429 rfl).2
     completionEngineFailing).2 helloMessage rfl rfl,
   ((infer_returns_backend_error ctx0 scenarioRequest (some helloMessage) [] err500 rfl).2
     completionEngineFailing500).1
     { ctx := ctx0,
       params := { Prompt := ["hello"], Temperature := temp07, MaxTokens := 50 },
       apiResp := none, err := some err500 } (by decide) rfl⟩

/-- C4. For both adapters and every two requests with the same first message,
the same `Temperature` and the same `MaxTokens`, whatever follows position 0:
against the same backend, the two invocations of `Infer` are the same run, that
is the same outbound calls with the same parameters and the same result. -/
theorem infer_first_message_only (ctx : Context) (r1 r2 : EngineRequest)
    (hfirst : r1.Messages.head? = r2.Messages.head?)
    (htemp : r1.Temperature = r2.Temperature)
    (hmax : r1.MaxTokens = r2.MaxTokens) :
    (∀ e : OpenAIChatEngine, e.Infer ctx (some r1) = e.Infer ctx (some r2)) ∧
    (∀ e : OpenAICompletionEngine, e.Infer ctx (some r1) = e.Infer ctx (some r2)) := by
  have hc : OpenAIChatEngine.outboundParams (some r1) =
      OpenAIChatEngine.outboundParams (some r2) := by
    rw [chat_outboundParams_head, chat_outboundParams_head, hfirst, htemp, hmax]
  have hp : OpenAICompletionEngine.outboundParams (some r1) =
      OpenAICompletionEngine.outboundParams (some r2) := by
    rw [completion_outboundParams_head, completion_outboundParams_head, List.head?_map,
      List.head?_map, hfirst, htemp, hmax]
  constructor
  · intro e
    unfold OpenAIChatEngine.Infer
    rw [hc]
  · intro e
    unfold OpenAICompletionEngine.Infer
    rw [hp]

/-- An instance of C4: two more messages after the first change nothing. -/
theorem infer_first_message_only_witness :
    scenarioRequestLong.Messages.head? = scenarioRequest.Messages.head? ∧
    scenarioRequestLong.Messages.length = 3 ∧
    chatEngineHiThere.Infer ctx0 (some scenarioRequestLong) =
      chatEngineHiThere.Infer ctx0 (some scenarioRequest) ∧
    completionEngineHiThere.Infer ctx0 (some scenarioRequestLong) =
      completionEngineHiThere.Infer ctx0 (some scenarioRequest) :=
  ⟨rfl, rfl,
   (infer_first_message_only ctx0 scenarioRequestLong scenarioRequest rfl rfl rfl).1
     chatEngineHiThere,
   (infer_first_message_only ctx0 scenarioRequestLong scenarioRequest rfl rfl rfl).2
     completionEngineHiThere⟩

/-- C5 does not hold as stated. The request whose only message is the nil
pointer has a non-empty `Messages` list, and the completion adapter sends no
prompt for it: `Messages[0].Content` faults on the nil pointer before any call. -/
theorem completion_nil_first_message_sends_no_prompt :
    nilFirstRequest.Messages ≠ [] ∧
    (¬ ∃ c ∈ (completionEngineHiThere.Infer ctx0 (some nilFirstRequest)).calls,
      c.params.Prompt.length = 1) ∧
    completionEngineHiThere.Infer ctx0 (some nilFirstRequest) =
      { calls := [], outcome := .fault .nilDereference } := by
  have h : completionEngineHiThere.Infer ctx0 (some nilFirstRequest) =
      { calls := [], outcome := .fault .nilDereference } := by decide
  refine ⟨by decide, ?_, h⟩
  rw [h]
  simp

/-- C5, amended. For every request whose `Messages` list is non-empty with a
non-nil first element `m`, the completion adapter sends a `Prompt` list of
exactly one element, `m.Content`; and the roles never reach the backend: a
request that differs from it only in the `Role` of its messages gives the same
run, that is the same outbound parameters and the same result. -/
theorem completion_prompt_is_first_content (e : OpenAICompletionEngine) (ctx : Context)
    (r : EngineRequest) (m : EngineMessage) (rest : List (Option EngineMessage))
    (hreq : r.Messages = some m :: rest) :
    (e.Infer ctx (some r)).calls.map (fun c => c.params.Prompt) = [[m.Content]] ∧
    ∀ r2 : EngineRequest,
      r2.Messages.map (Option.map EngineMessage.Content) =
        r.Messages.map (Option.map EngineMessage.Content) →
      r2.Temperature = r.Temperature → r2.MaxTokens = r.MaxTokens →
      e.Infer ctx (some r2) = e.Infer ctx (some r) := by
  constructor
  · rw [completion_infer_calls, completion_outboundParams_cons r m rest hreq]
    rfl
  · intro r2 hcontent htemp hmax
    have hp : OpenAICompletionEngine.outboundParams (some r2) =
        OpenAICompletionEngine.outboundParams (some r) := by
      rw [completion_outboundParams_head, completion_outboundParams_head, hcontent, htemp,
        hmax]
    unfold OpenAICompletionEngine.Infer
    rw [hp]

/-- An instance of the amended C5: the prompt sent for `hello` is the one-element list
`hello`, and the role `system` in place of `user` changes nothing. -/
theorem completion_prompt_is_first_content_witness :
    scenarioRequest.Messages = some helloMessage :: [] ∧
    (completionEngineHiThere.Infer ctx0 (some scenarioRequest)).calls.map
      (fun c => c.params.Prompt) = [["hello"]] ∧
    scenarioRequestSystem ≠ scenarioRequest ∧
    completionEngineHiThere.Infer ctx0 (some scenarioRequestSystem) =
      completionEngineHiThere.Infer ctx0 (some scenarioRequest) :=
  ⟨rfl,
   (completion_prompt_is_first_content completionEngineHiThere ctx0 scenarioRequest
     helloMessage [] rfl).1,
   by decide,
   (completion_prompt_is_first_content completionEngineHiThere ctx0 scenarioRequest
     helloMessage [] rfl).2 scenarioRequestSystem rfl rfl rfl⟩

/-- C6 does not hold as stated. The request whose only message is the nil
pointer has a non-empty `Messages` list, and the chat adapter sends no message
list for it: `Messages[0].Role` faults on the nil pointer before any call. -/
theorem chat_nil_first_message_sends_no_message :
    nilFirstRequest.Messages ≠ [] ∧
    (¬ ∃ c ∈ (chatEngineHiThere.Infer ctx0 (some nilFirstRequest)).calls,
      c.params.Messages.length = 1) ∧
    chatEngineHiThere.Infer ctx0 (some nilFirstRequest) =
      { calls := [], outcome := .fault .nilDereference } := by
  have h : chatEngineHiThere.Infer ctx0 (some nilFirstRequest) =
      { calls := [], outcome := .fault .nilDereference } := by decide
  refine ⟨by decide, ?_, h⟩
  rw [h]
  simp

/-- C6, amended. For every request whose `Messages` list is non-empty with a
non-nil first element `m`, the chat adapter sends the backend a message list of
exactly one element, whose `Role` is `m.Role` and whose `Content` is
`m.Content`, for every role string. -/
theorem chat_forwards_first_message_verbatim (e : OpenAIChatEngine) (ctx : Context)
    (r : EngineRequest) (m : EngineMessage) (rest : List (Option EngineMessage))
    (hreq : r.Messages = some m :: rest) :
    (e.Infer ctx (some r)).calls.map (fun c => c.params.Messages) =
      [[some { Role := m.Role, Content := m.Content }]] := by
  rw [chat_infer_calls, chat_outboundParams_cons r m rest hreq]
  rfl

/-- An instance of the amended C6: an unknown role and a content with surrounding blanks
are sent as they are. -/
theorem chat_forwards_first_message_verbatim_witness :
    oddRoleRequest.Messages = some { Role := "wizard", Content := "  hello \n" } :: [] ∧
    (chatEngineHiThere.Infer ctx0 (some oddRoleRequest)).calls.map
      (fun c => c.params.Messages) = [[some { Role := "wizard", Content := "  hello \n" }]] :=
  ⟨rfl,
   chat_forwards_first_message_verbatim chatEngineHiThere ctx0 oddRoleRequest
     { Role := "wizard", Content := "  hello \n" } [] rfl⟩

/-- C7. For both adapters and every request with a non-empty `Messages` list,
whatever its `Temperature` and `MaxTokens`: the parameters of every call sent
to the backend carry the request's `Temperature` and the request's `MaxTokens`;
and such a call is sent as soon as the first message is not nil. -/
theorem infer_passes_numerics_through (ctx : Context) (r : EngineRequest)
    (m0 : Option EngineMessage) (rest : List (Option EngineMessage))
    (hreq : r.Messages = m0 :: rest) :
    (∀ e : OpenAIChatEngine,
      (∀ c ∈ (e.Infer ctx (some r)).calls,
        c.params.Temperature = r.Temperature ∧ c.params.MaxTokens = r.MaxTokens) ∧
      (m0.isSome = true → (e.Infer ctx (some r)).calls.length = 1)) ∧
    (∀ e : OpenAICompletionEngine,
      (∀ c ∈ (e.Infer ctx (some r)).calls,
        c.params.Temperature = r.Temperature ∧ c.params.MaxTokens = r.MaxTokens) ∧
      (m0.isSome = true → (e.Infer ctx (some r)).calls.length = 1)) := by
  constructor
  · intro e
    rw [chat_infer_calls, chat_outboundParams_head, hreq]
    cases m0 <;> simp
  · intro e
    rw [completion_infer_calls, completion_outboundParams_head, hreq]
    cases m0 <;> simp

/-- An instance of C7: a negative temperature and a negative token limit reach
both backends as they are, and so do zero values. -/
theorem infer_passes_numerics_through_witness :
    negativeRequest.Messages = some helloMessage :: [] ∧
    (chatEngineHiThere.Infer ctx0 (some negativeRequest)).calls.length = 1 ∧
    (∀ c ∈ (chatEngineHiThere.Infer ctx0 (some negativeRequest)).calls,
      c.params.Temperature = tempNeg ∧ c.params.MaxTokens = -7) ∧
    (completionEngineHiThere.Infer ctx0 (some negativeRequest)).calls.length = 1 ∧
    (∀ c ∈ (completionEngineHiThere.Infer ctx0 (some negativeRequest)).calls,
      c.params.Temperature = tempNeg ∧ c.params.MaxTokens = -7) ∧
    (∀ c ∈ (chatEngineHiThere.Infer ctx0 (some zeroRequest)).calls,
      c.params.Temperature = { bits := 0 } ∧ c.params.MaxTokens = 0) :=
  ⟨rfl,
   ((infer_passes_numerics_through ctx0 negativeRequest (some helloMessage) [] rfl).1
     chatEngineHiThere).2 rfl,
   ((infer_passes_numerics_through ctx0 negativeRequest (some helloMessage) [] rfl).1
     chatEngineHiThere).1,
   ((infer_passes_numerics_through ctx0 negativeRequest (some helloMessage) [] rfl).2
     completionEngineHiThere).2 rfl,
   ((infer_passes_numerics_through ctx0 negativeRequest (some helloMessage) [] rfl).2
     completionEngineHiThere).1,
   ((infer_passes_numerics_through ctx0 zeroRequest (some helloMessage) [] rfl).1
     chatEngineHiThere).1⟩

/-- C8 does not hold as stated. For the request `hello`, whose `Messages` list
is non-empty, each backend call succeeds with an empty choice list, and neither
adapter returns an error value to the caller: both invocations fault on
`Choices[0]`. -/
theorem infer_zero_choices_returns_no_error :
    scenarioRequest.Messages ≠ [] ∧
    (∃ c ∈ (chatEngineNoChoices.Infer ctx0 (some scenarioRequest)).calls,
      c.err = none ∧ c.apiResp = some { Choices := [] }) ∧
    (¬ ∃ x : GoError, (chatEngineNoChoices.Infer ctx0 (some scenarioRequest)).outcome =
      .returned none (some x)) ∧
    (chatEngineNoChoices.Infer ctx0 (some scenarioRequest)).outcome =
      .fault (.indexOutOfRange 0 0) ∧
    (∃ c ∈ (completionEngineNoChoices.Infer ctx0 (some scenarioRequest)).calls,
      c.err = none ∧ c.apiResp = some { Choices := [] }) ∧
    (¬ ∃ x : GoError, (completionEngineNoChoices.Infer ctx0 (some scenarioRequest)).outcome =
      .returned none (some x)) ∧
    (completionEngineNoChoices.Infer ctx0 (some scenarioRequest)).outcome =
      .fault (.indexOutOfRange 0 0) := by
  have h1 : (chatEngineNoChoices.Infer ctx0 (some scenarioRequest)).outcome =
      .fault (.indexOutOfRange 0 0) := by decide
  have h2 : (completionEngineNoChoices.Infer ctx0 (some scenarioRequest)).outcome =
      .fault (.indexOutOfRange 0 0) := by decide
  refine ⟨by decide, ⟨chatNoChoicesCall, by decide, rfl, rfl⟩, ?_, h1,
    ⟨completionNoChoicesCall, by decide, rfl, rfl⟩, ?_, h2⟩
  · rintro ⟨x, hx⟩
    rw [h1] at hx
    cases hx
  · rintro ⟨x, hx⟩
    rw [h2] at hx
    cases hx

/-- C8, amended. For both adapters and every request (in particular every
request with a non-empty `Messages` list): when the backend call that `Infer`
issues succeeds, with a nil error and a response whose choice list is empty,
`Infer` does not return: the positional extraction `Choices[0]` faults with
index out of range (index 0, length 0), so neither a response nor an error
value reaches the caller. -/
theorem infer_zero_choices_faults (ctx : Context) (r : EngineRequest) :
    (∀ (e : OpenAIChatEngine) (a : chat.CreateCompletionResponse),
      (∃ c ∈ (e.Infer ctx (some r)).calls, c.err = none ∧ c.apiResp = some a) →
      a.Choices = [] →
        (e.Infer ctx (some r)).outcome = .fault (.indexOutOfRange 0 0)) ∧
    (∀ (e : OpenAICompletionEngine) (a : completion.CreateResponse),
      (∃ c ∈ (e.Infer ctx (some r)).calls, c.err = none ∧ c.apiResp = some a) →
      a.Choices = [] →
        (e.Infer ctx (some r)).outcome = .fault (.indexOutOfRange 0 0)) := by
  constructor
  · intro e a
    unfold OpenAIChatEngine.Infer
    cases OpenAIChatEngine.outboundParams (some r) with
    | error f => simp
    | ok p =>
      dsimp only
      cases h : (e.Client.CreateCompletion ctx p).2 with
      | some y => simp
      | none =>
        dsimp only
        intro hcall hchoices
        have ha : (e.Client.CreateCompletion ctx p).1 = some a := by
          cases hfc : OpenAIChatEngine.firstChoiceText (e.Client.CreateCompletion ctx p).1 <;>
            simpa [hfc] using hcall
        simp [ha, OpenAIChatEngine.firstChoiceText, deref, index, hchoices, bind, Except.bind]
  · intro e a
    unfold OpenAICompletionEngine.Infer
    cases OpenAICompletionEngine.outboundParams (some r) with
    | error f => simp
    | ok p =>
      dsimp only
      cases h : (e.Client.Create ctx p).2 with
      | some y => simp
      | none =>
        dsimp only
        intro hcall hchoices
        have ha : (e.Client.Create ctx p).1 = some a := by
          cases hfc : OpenAICompletionEngine.firstChoiceText (e.Client.Create ctx p).1 <;>
            simpa [hfc] using hcall
        simp [ha, OpenAICompletionEngine.firstChoiceText, deref, index, hchoices, bind,
          Except.bind]

/-- An instance of the amended C8: against backends that succeed with zero
choices, both adapters issue their call and then fault on `Choices[0]`. -/
theorem infer_zero_choices_faults_witness :
    (∃ c ∈ (chatEngineNoChoices.Infer ctx0 (some scenarioRequest)).calls,
      c.err = none ∧ c.apiResp = some { Choices := [] }) ∧
    (chatEngineNoChoices.Infer ctx0 (some scenarioRequest)).outcome =
      .fault (.indexOutOfRange 0 0) ∧
    (∃ c ∈ (completionEngineNoChoices.Infer ctx0 (some scenarioRequest)).calls,
      c.err = none ∧ c.apiResp = some { Choices := [] }) ∧
    (completionEngineNoChoices.Infer ctx0 (some scenarioRequest)).outcome =
      .fault (.indexOutOfRange 0 0) :=
  have h1 : ∃ c ∈ (chatEngineNoChoices.Infer ctx0 (some scenarioRequest)).calls,
      c.err = none ∧ c.apiResp = some { Choices := [] } :=
    ⟨chatNoChoicesCall, by decide, rfl, rfl⟩
  have h2 : ∃ c ∈ (completionEngineNoChoices.Infer ctx0 (some scenarioRequest)).calls,
      c.err = none ∧ c.apiResp = some { Choices := [] } :=
    ⟨completionNoChoicesCall, by decide, rfl, rfl⟩
  ⟨h1, (infer_zero_choices_faults ctx0 scenarioRequest).1 chatEngineNoChoices _ h1 rfl,
   h2, (infer_zero_choices_faults ctx0 scenarioRequest).2 completionEngineNoChoices _ h2 rfl⟩

/-- C9 does not hold as stated. An invocation of `Infer` on a request without
messages, or on one whose first message is nil, issues no call at all, for
either adapter. -/
theorem infer_may_issue_no_call :
    ¬ (chatEngineHiThere.Infer ctx0 (some emptyRequest)).calls.length = 1 ∧
    ¬ (completionEngineHiThere.Infer ctx0 (some emptyRequest)).calls.length = 1 ∧
    (chatEngineHiThere.Infer ctx0 (some emptyRequest)).calls = [] ∧
    (completionEngineHiThere.Infer ctx0 (some emptyRequest)).calls = [] ∧
    (chatEngineHiThere.Infer ctx0 (some nilFirstRequest)).calls = [] ∧
    (completionEngineHiThere.Infer ctx0 (some nilFirstRequest)).calls = [] := by
  refine ⟨by decide, by decide, by decide, by decide, by decide, by decide⟩

/-- C9, amended. For both adapters, every invocation of `Infer` on a request
whose `Messages` starts with a non-nil message issues exactly one call to the
backend client, whatever that call returns; and no invocation at all, on any
request, issues more than one call. -/
theorem infer_issues_one_call (ctx : Context) (r : EngineRequest) (m : EngineMessage)
    (rest : List (Option EngineMessage)) (hreq : r.Messages = some m :: rest) :
    (∀ e : OpenAIChatEngine, (e.Infer ctx (some r)).calls.length = 1) ∧
    (∀ e : OpenAICompletionEngine, (e.Infer ctx (some r)).calls.length = 1) ∧
    (∀ (e : OpenAIChatEngine) (req : Option EngineRequest),
      (e.Infer ctx req).calls.length ≤ 1) ∧
    (∀ (e : OpenAICompletionEngine) (req : Option EngineRequest),
      (e.Infer ctx req).calls.length ≤ 1) := by
  refine ⟨?_, ?_, ?_, ?_⟩
  · intro e
    rw [chat_infer_calls, chat_outboundParams_cons r m rest hreq]
    rfl
  · intro e
    rw [completion_infer_calls, completion_outboundParams_cons r m rest hreq]
    rfl
  · intro e req
    rw [chat_infer_calls]
    cases OpenAIChatEngine.outboundParams req <;> simp
  · intro e req
    rw [completion_infer_calls]
    cases OpenAICompletionEngine.outboundParams req <;> simp

/-- An instance of the amended C9: one call each, against a backend that
answers, one that fails and one that returns no choices. -/
theorem infer_issues_one_call_witness :
    scenarioRequest.Messages = some helloMessage :: [] ∧
    (chatEngineHiThere.Infer ctx0 (some scenarioRequest)).calls.length = 1 ∧
    (chatEngineFailing.Infer ctx0 (some scenarioRequest)).calls.length = 1 ∧
    (chatEngineNoChoices.Infer ctx0 (some scenarioRequest)).calls.length = 1 ∧
    (completionEngineHiThere.Infer ctx0 (some scenarioRequest)).calls.length = 1 ∧
    (completionEngineFailing.Infer ctx0 (some scenarioRequest)).calls.length = 1 ∧
    (completionEngineNoChoices.Infer ctx0 (some scenarioRequest)).calls.length = 1 :=
  ⟨rfl,
   (infer_issues_one_call ctx0 scenarioRequest helloMessage [] rfl).1 chatEngineHiThere,
   (infer_issues_one_call ctx0 scenarioRequest helloMessage [] rfl).1 chatEngineFailing,
   (infer_issues_one_call ctx0 scenarioRequest helloMessage [] rfl).1 chatEngineNoChoices,
   (infer_issues_one_call ctx0 scenarioRequest helloMessage [] rfl).2.1
     completionEngineHiThere,
   (infer_issues_one_call ctx0 scenarioRequest helloMessage [] rfl).2.1
     completionEngineFailing,
   (infer_issues_one_call ctx0 scenarioRequest helloMessage [] rfl).2.1
     completionEngineNoChoices⟩

/-- C10. For both adapters and every request whose `Messages` list is empty,
`Infer` validates nothing and returns nothing: the access `Messages[0]` faults
with index out of range (index 0, length 0) while the outbound parameters are
built, so the run has no backend call and ends in that fault, with neither a
response nor an error value. -/
theorem infer_empty_messages_faults (ctx : Context) (r : EngineRequest)
    (hreq : r.Messages = []) :
    (∀ e : OpenAIChatEngine, e.Infer ctx (some r) =
      { calls := [], outcome := .fault (.indexOutOfRange 0 0) }) ∧
    (∀ e : OpenAICompletionEngine, e.Infer ctx (some r) =
      { calls := [], outcome := .fault (.indexOutOfRange 0 0) }) := by
  constructor
  · intro e
    unfold OpenAIChatEngine.Infer
    rw [chat_outboundParams_head, hreq]
    rfl
  · intro e
    unfold OpenAICompletionEngine.Infer
    rw [completion_outboundParams_head, hreq]
    rfl

/-- An instance of C10: the request without messages, against backends that
would answer. -/
theorem infer_empty_messages_faults_witness :
    emptyRequest.Messages = [] ∧
    chatEngineHiThere.Infer ctx0 (some emptyRequest) =
      { calls := [], outcome := .fault (.indexOutOfRange 0 0) } ∧
    completionEngineHiThere.Infer ctx0 (some emptyRequest) =
      { calls := [], outcome := .fault (.indexOutOfRange 0 0) } :=
  ⟨rfl,
   (infer_empty_messages_faults ctx0 emptyRequest rfl).1 chatEngineHiThere,
   (infer_empty_messages_faults ctx0 emptyRequest rfl).2 completionEngineHiThere⟩

end GptBot
